import Mathlib

/-!
Verification of the Pulumi Proxmox VM provisioning program
(`src/index.ts`, entrypoint `main`).

The program reads a stack configuration (Proxmox endpoint, API token,
insecure flag, and a list of VM configurations), and for each `VMConfig`
declares one `proxmox.vm.VirtualMachine` resource whose arguments are
built from the config.  It finally returns stack outputs
(`totalVms`, `vmsByName`, `vmIdList`).

The embedding below mirrors the TypeScript `interface VMConfig`
(src/index.ts lines 7-47), the argument object passed to
`new proxmox.vm.VirtualMachine` (lines 87-184), the configuration
reading (lines 52-71) and the returned outputs (lines 197-210).
JavaScript semantics that matter are modelled explicitly:
`??` becomes `Option.getD`; an object spread guarded by `obj && {...}`
becomes `Option.map`; a spread guarded by a string's truthiness
(`password && {...}`) contributes nothing for the empty string.
-/

/-- CPU sub-block of a VMConfig (`cpu: { cores; sockets }`). -/
structure CpuConfig where
  cores : Int
  sockets : Int
deriving Repr, DecidableEq

/-- Memory sub-block of a VMConfig (`memory: { dedicated }`, in MB). -/
structure MemoryConfig where
  dedicated : Int
deriving Repr, DecidableEq

/-- Disk sub-block of a VMConfig. `fileFormat` is the only optional field. -/
structure DiskConfig where
  interface : String
  datastoreId : String
  size : Int
  fileFormat : Option String
deriving Repr, DecidableEq

/-- Network sub-block of a VMConfig (`network: { bridge; model }`). -/
structure NetworkConfig where
  bridge : String
  model : String
deriving Repr, DecidableEq

/-- Optional clone sub-block of a VMConfig (`clone?: { nodeName; vmId; full }`). -/
structure CloneConfig where
  nodeName : String
  vmId : Int
  full : Bool
deriving Repr, DecidableEq

/-- DNS sub-block of the cloud-init block (`dns?: { domain; servers }`). -/
structure DnsConfig where
  domain : String
  servers : List String
deriving Repr, DecidableEq

/-- IPv4 sub-block of the cloud-init block (`ipv4?: { address; gateway }`). -/
structure Ipv4Config where
  address : String
  gateway : String
deriving Repr, DecidableEq

/-- Optional cloud-init sub-block of a VMConfig (`cloudInit?: {...}`).
`datastoreId` is required; the remaining fields are optional. -/
structure CloudInitConfig where
  datastoreId : String
  dns : Option DnsConfig
  ipv4 : Option Ipv4Config
  sshKeys : Option (List String)
  username : Option String
  password : Option String
deriving Repr, DecidableEq

/-- The `VMConfig` interface of src/index.ts lines 7-47.  `vmId`, `clone`
and `cloudInit` are the optional (`?`) top-level fields; `cpu`, `memory`,
`disk` and `network` are required. -/
structure VMConfig where
  name : String
  nodeName : String
  vmId : Option Int
  cpu : CpuConfig
  memory : MemoryConfig
  disk : DiskConfig
  network : NetworkConfig
  clone : Option CloneConfig
  cloudInit : Option CloudInitConfig
deriving Repr, DecidableEq

/-! Argument objects passed to `new proxmox.vm.VirtualMachine`. -/

/-- One entry of the `disks: [...]` argument list (lines 106-113). -/
structure DiskArgs where
  interface : String
  datastoreId : String
  size : Int
  fileFormat : String
deriving Repr, DecidableEq

/-- One entry of the `networkDevices: [...]` argument list (lines 116-121). -/
structure NetworkDeviceArgs where
  bridge : String
  model : String
deriving Repr, DecidableEq

/-- The `clone: {...}` argument block (lines 124-130). -/
structure CloneArgs where
  nodeName : String
  vmId : Int
  full : Bool
deriving Repr, DecidableEq

/-- The `dns: {...}` block inside `initialization` (lines 138-143). -/
structure DnsArgs where
  domain : String
  servers : List String
deriving Repr, DecidableEq

/-- One entry of `ipConfigs: [...]`, holding an `ipv4` object (lines 145-154). -/
structure IpConfigArgs where
  address : String
  gateway : String
deriving Repr, DecidableEq

/-- The `userAccount: {...}` block inside `initialization` (lines 156-165).
The `password` key is spread in only when `cloudInit.password` is truthy. -/
structure UserAccountArgs where
  username : String
  keys : List String
  password : Option String
deriving Repr, DecidableEq

/-- The `initialization: {...}` argument block (lines 133-167).  `dns`,
`ipConfigs` and `userAccount` are spread in only when the corresponding
cloud-init sub-object is present. -/
structure InitializationArgs where
  type : String
  datastoreId : String
  dns : Option DnsArgs
  ipConfigs : Option (List IpConfigArgs)
  userAccount : Option UserAccountArgs
deriving Repr, DecidableEq

/-- The `agent: {...}` argument block (lines 172-176). -/
structure AgentArgs where
  enabled : Bool
  trim : Bool
  type : String
deriving Repr, DecidableEq

/-- The `operatingSystem: {...}` argument block (lines 177-179). -/
structure OperatingSystemArgs where
  type : String
deriving Repr, DecidableEq

/-- The full argument object passed to `new proxmox.vm.VirtualMachine`
(src/index.ts lines 89-180). -/
structure VMArgs where
  name : String
  nodeName : String
  vmId : Option Int
  cpu : CpuConfig
  memory : MemoryConfig
  disks : List DiskArgs
  networkDevices : List NetworkDeviceArgs
  clone : Option CloneArgs
  initialization : Option InitializationArgs
  bios : String
  onBoot : Bool
  agent : AgentArgs
  operatingSystem : OperatingSystemArgs
deriving Repr, DecidableEq

/-- Builds the `VirtualMachine` resource arguments from a `VMConfig`,
mirroring src/index.ts lines 89-180 field by field:
  - `fileFormat: vmConfig.disk.fileFormat ?? "qcow2"` is `Option.getD`;
  - `...(vmConfig.clone && {clone: {...}})` and
    `...(vmConfig.cloudInit && {initialization: {...}})` are `Option.map`
    (a spread of `undefined` contributes nothing);
  - inside `initialization`, the `dns`, `ipConfigs` and `userAccount`
    blocks are likewise guarded spreads on `dns`, `ipv4` and `sshKeys`;
  - `username: vmConfig.cloudInit.username ?? "root"`;
  - `...(vmConfig.cloudInit.password && {password: ...})` spreads nothing
    when the password string is empty (falsy), hence the emptiness test. -/
def mkVMArgs (cfg : VMConfig) : VMArgs :=
  { name := cfg.name
    nodeName := cfg.nodeName
    vmId := cfg.vmId
    cpu := { cores := cfg.cpu.cores, sockets := cfg.cpu.sockets }
    memory := { dedicated := cfg.memory.dedicated }
    disks := [{ interface := cfg.disk.interface
                datastoreId := cfg.disk.datastoreId
                size := cfg.disk.size
                fileFormat := cfg.disk.fileFormat.getD "qcow2" }]
    networkDevices := [{ bridge := cfg.network.bridge
                         model := cfg.network.model }]
    clone := cfg.clone.map fun c =>
      { nodeName := c.nodeName, vmId := c.vmId, full := c.full }
    initialization := cfg.cloudInit.map fun ci =>
      { type := "nocloud"
        datastoreId := ci.datastoreId
        dns := ci.dns.map fun d => { domain := d.domain, servers := d.servers }
        ipConfigs := ci.ipv4.map fun ip =>
          [{ address := ip.address, gateway := ip.gateway }]
        userAccount := ci.sshKeys.map fun ks =>
          { username := ci.username.getD "root"
            keys := ks
            password := ci.password.bind fun p =>
              if p = "" then none else some p } }
    bios := "seabios"
    onBoot := true
    agent := { enabled := true, trim := true, type := "virtio" }
    operatingSystem := { type := "l26" } }

/-! Configuration reading (src/index.ts lines 52-71). -/

/-- The raw Pulumi stack configuration as the program sees it: each key
may be present or absent.  `vms` is the declarative inventory list. -/
structure RawStackConfig where
  endpoint : Option String
  apiToken : Option String
  insecure : Option Bool
  vms : Option (List VMConfig)
deriving Repr, DecidableEq

/-- Error raised by `config.require` / `config.requireObject` when a
required key is missing: it names the missing key. -/
inductive ConfigError where
  | missingKey : String → ConfigError
deriving Repr, DecidableEq

/-- The typed configuration `main` works with after reading all keys. -/
structure LoadedConfig where
  endpoint : String
  apiToken : String
  insecure : Bool
  vms : List VMConfig
deriving Repr, DecidableEq

/-- The configuration-loading phase of `main` (src/index.ts lines 52-71):
`config.require("proxmox:endpoint")`, `config.requireSecret("proxmox:apiToken")`,
`config.getBoolean("proxmox:insecure") ?? false`, and
`config.requireObject("vms")`, in program order.  `require` and
`requireObject` fail when the key is absent; `requireObject` performs a
plain type cast and no validation of the list's contents. -/
def loadStackConfig (raw : RawStackConfig) : Except ConfigError LoadedConfig :=
  match raw.endpoint with
  | none => .error (.missingKey "proxmox:endpoint")
  | some e =>
    match raw.apiToken with
    | none => .error (.missingKey "proxmox:apiToken")
    | some t =>
      match raw.vms with
      | none => .error (.missingKey "vms")
      | some vs =>
        .ok { endpoint := e, apiToken := t
              insecure := raw.insecure.getD false, vms := vs }

/-! Resource declaration and stack outputs (src/index.ts lines 86-210). -/

/-- The list of `VirtualMachine` resources declared by the loop of `main`
(lines 86-195): one per config entry, registered under the config's
`name` with the arguments built by `mkVMArgs`. -/
def declaredVMs (cfgs : List VMConfig) : List (String × VMArgs) :=
  cfgs.map fun c => (c.name, mkVMArgs c)

/-- Per-VM record stored in `vmsByName` (lines 189-194).  `vm.id` is a
deploy-time engine value attached to the declared resource; it is
modelled by the resource's logical name, which identifies it.  `vm.name`
resolves to the `name` argument. -/
structure VMEntry where
  id : String
  name : String
  nodeName : String
  requestedVmId : Option Int
deriving Repr, DecidableEq

/-- The stack outputs returned by `main` (lines 199-203) and exported at
lines 208-210: `totalVms`, `vmsByName`, `vmIdList`. -/
structure StackOutputs where
  totalVms : Nat
  vmsByName : List (String × VMEntry)
  vmIdList : List String
deriving Repr, DecidableEq

/-- The outputs `main` produces for a given VM configuration list
(src/index.ts lines 186-203). -/
def mainOutputs (cfgs : List VMConfig) : StackOutputs :=
  { totalVms := cfgs.length
    vmsByName := cfgs.map fun c =>
      (c.name, { id := c.name, name := (mkVMArgs c).name
                 nodeName := c.nodeName, requestedVmId := c.vmId })
    vmIdList := cfgs.map fun c => c.name }

/-- Every string value occurring in the stack outputs: the `vmsByName`
keys, each entry's `id`, `name` and `nodeName`, and the id list. -/
def outputStrings (o : StackOutputs) : List String :=
  o.vmsByName.map Prod.fst
    ++ o.vmsByName.map (fun p => p.2.id)
    ++ o.vmsByName.map (fun p => p.2.name)
    ++ o.vmsByName.map (fun p => p.2.nodeName)
    ++ o.vmIdList

/-! A minimal model of the declarative engine's re-run semantics: a run
upserts each declared resource, keyed by its logical name, into the
stack state; a resource is created only when its key is absent from the
prior state.  This is the substrate on which the idempotence claim about
`main`'s declarations is stated. -/

/-- Stack state: the resources that exist after a run, keyed by logical
resource name. -/
def StackState : Type := String → Option VMArgs

/-- The empty stack state (first run starts here). -/
def emptyState : StackState := fun _ => none

/-- Applying a run's declarations to a prior state: every declared
resource ends up in the state under its key (an upsert), everything else
is untouched. -/
def applyRun (decls : List (String × VMArgs)) (s : StackState) : StackState :=
  fun n =>
    match decls.lookup n with
    | some a => some a
    | none => s n

/-- The resources a run newly creates against a prior state: those
declared under a key the state does not already hold. -/
def createdBy (decls : List (String × VMArgs)) (s : StackState) : List String :=
  (decls.filter fun p => (s p.1).isNone).map Prod.fst

/-- SSH public-key material contained in a resource's arguments: the
`keys` list of the cloud-init `userAccount` block when that block is
present, and nothing otherwise. -/
def sshKeyMaterial (a : VMArgs) : List String :=
  match a.initialization with
  | none => []
  | some ini =>
    match ini.userAccount with
    | none => []
    | some ua => ua.keys

/-- The cloud-init `userAccount` block of a resource's arguments, when
both the initialization block and the user account are present. -/
def userAccountOf (a : VMArgs) : Option UserAccountArgs :=
  a.initialization.bind InitializationArgs.userAccount

/-! Concrete configurations used to evaluate the definitions. -/

/-- A minimal well-formed configuration: required fields only. -/
def baseCfg : VMConfig :=
  { name := "vm1"
    nodeName := "pve1"
    vmId := some 100
    cpu := { cores := 2, sockets := 1 }
    memory := { dedicated := 2048 }
    disk := { interface := "scsi0", datastoreId := "local-lvm"
              size := 20, fileFormat := none }
    network := { bridge := "vmbr0", model := "virtio" }
    clone := none
    cloudInit := none }

/-- A configuration whose cloud-init block supplies an SSH public key. -/
def cfgWithKey : VMConfig :=
  { baseCfg with cloudInit := some (
      { datastoreId := "local-lvm", dns := none, ipv4 := none
        sshKeys := some ["ssh-rsa AAAA example"]
        username := none, password := none }) }

/-- A configuration whose cloud-init block carries a static address. -/
def cfgWithAddress : VMConfig :=
  { baseCfg with cloudInit := some (
      { datastoreId := "local-lvm", dns := none
        ipv4 := some ({ address := "10.0.0.77/24", gateway := "10.0.0.1" })
        sshKeys := none, username := none, password := none }) }

/-- A configuration that clones from a template. -/
def cfgClone : VMConfig :=
  { baseCfg with clone := some ({ nodeName := "pve1", vmId := 9000, full := true }) }

/-- A configuration with an explicit disk file format. -/
def cfgRawFormat : VMConfig :=
  { baseCfg with disk := { baseCfg.disk with fileFormat := some "raw" } }

/-- A configuration with SSH keys, no username, and a password. -/
def cfgUserAcct : VMConfig :=
  { baseCfg with cloudInit := some (
      { datastoreId := "local-lvm", dns := none, ipv4 := none
        sshKeys := some ["k1"], username := none, password := some "pw" }) }

/-- A semantically invalid configuration the spec's validator would have
to reject: zero cores, sockets, memory and disk size, and an address
field that does not parse. -/
def cfgInvalid : VMConfig :=
  { name := "dup"
    nodeName := "pve1"
    vmId := none
    cpu := { cores := 0, sockets := 0 }
    memory := { dedicated := 0 }
    disk := { interface := "scsi0", datastoreId := "local-lvm"
              size := 0, fileFormat := none }
    network := { bridge := "vmbr0", model := "virtio" }
    clone := none
    cloudInit := some
      ({ datastoreId := "local-lvm", dns := none
         ipv4 := some ({ address := "not-an-address", gateway := "also-not" })
         sshKeys := none, username := none, password := none }) }

/-- A second invalid configuration sharing the name of `cfgInvalid`. -/
def cfgInvalid2 : VMConfig := { cfgInvalid with nodeName := "pve2" }

/-- A raw stack configuration whose VM list is semantically invalid
(duplicate names, non-positive shape integers, unparseable address). -/
def rawInvalid : RawStackConfig :=
  { endpoint := some "https://pve.example:8006"
    apiToken := some "root@pam token"
    insecure := none
    vms := some [cfgInvalid, cfgInvalid2] }

/-- A raw stack configuration with all required keys present. -/
def rawValid : RawStackConfig :=
  { endpoint := some "https://pve.example:8006"
    apiToken := some "root@pam token"
    insecure := some true
    vms := some [baseCfg] }

/-! Claim propositions that the code refutes, stated before their
refutations. -/

/-- The claim that the disk, network and cloud-init sub-blocks are each
independently optional and the built arguments contain exactly the
sub-blocks present.  Were the disk or network block optional, some
configuration would yield arguments without it. -/
def diskNetworkCloudInitOptional : Prop :=
  (∃ cfg : VMConfig, (mkVMArgs cfg).disks = []) ∧
  (∃ cfg : VMConfig, (mkVMArgs cfg).networkDevices = []) ∧
  (∀ cfg : VMConfig, (mkVMArgs cfg).initialization.isSome ↔ cfg.cloudInit.isSome)

/-- The claim that the resource arguments never contain SSH key
material. -/
def noSSHKeyMaterial : Prop :=
  ∀ cfg : VMConfig, sshKeyMaterial (mkVMArgs cfg) = []

/-- The claim that the clone and create+attach strategies are mutually
exclusive: a clone block appears iff a clone reference is present, and
when cloning, the create+attach disk block is not also emitted. -/
def cloneStrategyExclusive : Prop :=
  ∀ cfg : VMConfig,
    ((mkVMArgs cfg).clone.isSome ↔ cfg.clone.isSome) ∧
    (cfg.clone.isSome → (mkVMArgs cfg).disks = [])

/-- The claim that the exported summary contains, besides the total node
count, each node's address (here: the only address the config carries,
the cloud-init ipv4 address). -/
def summaryContainsAddresses : Prop :=
  ∀ cfgs : List VMConfig,
    (mainOutputs cfgs).totalVms = cfgs.length ∧
    ∀ cfg ∈ cfgs, ∀ ci ip, cfg.cloudInit = some ci → ci.ipv4 = some ip →
      ip.address ∈ outputStrings (mainOutputs cfgs)

/-- The claim that the inventory loader only returns sets that pass
semantic validation: unique names and positive machine-shape integers. -/
def loaderValidates : Prop :=
  ∀ raw out, loadStackConfig raw = .ok out →
    (out.vms.map VMConfig.name).Nodup ∧
    ∀ cfg ∈ out.vms,
      0 < cfg.cpu.cores ∧ 0 < cfg.cpu.sockets ∧
      0 < cfg.memory.dedicated ∧ 0 < cfg.disk.size

/-- Claim C1, counterexample: the disk block is not optional — every
argument object built by `main` contains a (one-element) disks list, so
no configuration contributes no disk block; `diskNetworkCloudInitOptional`
is therefore false. -/
theorem optional_blocks_claim_false : ¬ diskNetworkCloudInitOptional := by
  rintro ⟨⟨cfg, h⟩, -, -⟩
  simp [mkVMArgs] at h

/-- Claim C1, amended: only the clone and cloud-init sub-blocks are
independently optional; the built arguments contain the clone block iff
a clone reference is present and the initialization block iff a
cloud-init block is present (an absent block contributes nothing), while
the disk and network blocks are required and always emitted exactly
once. -/
theorem optional_blocks_amended :
    ∀ cfg : VMConfig,
      (mkVMArgs cfg).disks.length = 1 ∧
      (mkVMArgs cfg).networkDevices.length = 1 ∧
      ((mkVMArgs cfg).clone.isSome ↔ cfg.clone.isSome) ∧
      ((mkVMArgs cfg).initialization.isSome ↔ cfg.cloudInit.isSome) := by
  intro cfg
  refine ⟨rfl, rfl, ?_, ?_⟩ <;> simp [mkVMArgs]

/-- Claim C2, counterexample: `main` does push SSH public keys — for a
configuration whose cloud-init block supplies `sshKeys`, the built
arguments carry that key material, so `noSSHKeyMaterial` is false. -/
theorem ssh_never_pushed_claim_false : ¬ noSSHKeyMaterial := by
  intro h
  have hk := h cfgWithKey
  simp [cfgWithKey, baseCfg, mkVMArgs, sshKeyMaterial] at hk

/-- Claim C2, amended: the resource arguments contain SSH key material
exactly when `cloudInit.sshKeys` is supplied — the supplied keys then,
and none otherwise. -/
theorem ssh_keys_amended :
    ∀ cfg : VMConfig,
      (cfg.cloudInit.bind CloudInitConfig.sshKeys = none →
        sshKeyMaterial (mkVMArgs cfg) = []) ∧
      (∀ ks, cfg.cloudInit.bind CloudInitConfig.sshKeys = some ks →
        sshKeyMaterial (mkVMArgs cfg) = ks) := by
  intro cfg
  constructor
  · intro h
    cases hci : cfg.cloudInit with
    | none => simp [mkVMArgs, sshKeyMaterial, hci]
    | some ci =>
      rw [hci] at h
      simp only [Option.some_bind] at h
      simp [mkVMArgs, sshKeyMaterial, hci, h]
  · intro ks h
    cases hci : cfg.cloudInit with
    | none => rw [hci] at h; simp at h
    | some ci =>
      rw [hci] at h
      simp only [Option.some_bind] at h
      simp [mkVMArgs, sshKeyMaterial, hci, h]

/-- Claim C2 witness: a configuration without keys yields no key
material, and `cfgWithKey` yields exactly its supplied key. -/
theorem ssh_keys_amended_witness :
    sshKeyMaterial (mkVMArgs baseCfg) = [] ∧
    sshKeyMaterial (mkVMArgs cfgWithKey) = ["ssh-rsa AAAA example"] :=
  ⟨(ssh_keys_amended baseCfg).1 rfl,
   (ssh_keys_amended cfgWithKey).2 ["ssh-rsa AAAA example"] rfl⟩

/-- Claim C6, counterexample: the two strategies are not mutually
exclusive — for a cloning configuration the built arguments still
contain the create+attach disks block, so `cloneStrategyExclusive` is
false. -/
theorem clone_claim_false : ¬ cloneStrategyExclusive := by
  intro h
  have hd := (h cfgClone).2 rfl
  simp [mkVMArgs] at hd

/-- Claim C6, amended: the built arguments contain a clone block iff a
clone reference is present (and then it is the reference's data), but
the create+attach disks block is emitted unconditionally, also when
cloning. -/
theorem clone_amended :
    ∀ cfg : VMConfig,
      ((mkVMArgs cfg).clone.isSome ↔ cfg.clone.isSome) ∧
      (∀ c, cfg.clone = some c →
        (mkVMArgs cfg).clone =
          some ({ nodeName := c.nodeName, vmId := c.vmId, full := c.full })) ∧
      (mkVMArgs cfg).disks.length = 1 := by
  intro cfg
  refine ⟨by simp [mkVMArgs], ?_, rfl⟩
  intro c hc
  simp [mkVMArgs, hc]

/-- Claim C6 witness: for the cloning configuration the clone block
carries the reference and a disk block is still present. -/
theorem clone_amended_witness :
    (mkVMArgs cfgClone).clone =
      some ({ nodeName := "pve1", vmId := 9000, full := true }) ∧
    (mkVMArgs cfgClone).disks.length = 1 :=
  ⟨(clone_amended cfgClone).2.1
      { nodeName := "pve1", vmId := 9000, full := true } rfl,
   (clone_amended cfgClone).2.2⟩

/-- Claim C8: the disk file format defaults to qcow2 when
`disk.fileFormat` is absent and is passed through unchanged when
present. -/
theorem fileFormat_default :
    ∀ cfg : VMConfig,
      (cfg.disk.fileFormat = none →
        (mkVMArgs cfg).disks.map DiskArgs.fileFormat = ["qcow2"]) ∧
      (∀ v, cfg.disk.fileFormat = some v →
        (mkVMArgs cfg).disks.map DiskArgs.fileFormat = [v]) := by
  intro cfg
  constructor
  · intro h; simp [mkVMArgs, h]
  · intro v h; simp [mkVMArgs, h]

/-- Claim C8 witness: `baseCfg` (no format) gets qcow2; `cfgRawFormat`
keeps its explicit raw format. -/
theorem fileFormat_default_witness :
    (mkVMArgs baseCfg).disks.map DiskArgs.fileFormat = ["qcow2"] ∧
    (mkVMArgs cfgRawFormat).disks.map DiskArgs.fileFormat = ["raw"] :=
  ⟨(fileFormat_default baseCfg).1 rfl,
   (fileFormat_default cfgRawFormat).2 "raw" rfl⟩

/-- Helper: an association list resolves every key it contains. -/
theorem lookup_isSome_of_mem {α β : Type} [BEq α] [LawfulBEq α]
    (l : List (α × β)) (p : α × β) (hp : p ∈ l) : (l.lookup p.1).isSome := by
  induction l with
  | nil => cases hp
  | cons q t ih =>
    obtain ⟨a, b⟩ := q
    rcases List.mem_cons.mp hp with h | h
    · subst h
      simp [List.lookup]
    · cases hab : p.1 == a with
      | true => simp [List.lookup, hab]
      | false =>
        simp only [List.lookup, hab]
        exact ih h

/-- Claim C3: `main` is idempotent over re-runs.  The declarations of a
run are one per config entry, keyed by its name; applying the same
declarations a second time creates no additional machine and leaves the
stack state unchanged. -/
theorem provision_rerun_convergence :
    ∀ cfgs : List VMConfig,
      createdBy (declaredVMs cfgs) (applyRun (declaredVMs cfgs) emptyState) = [] ∧
      applyRun (declaredVMs cfgs) (applyRun (declaredVMs cfgs) emptyState) =
        applyRun (declaredVMs cfgs) emptyState ∧
      (declaredVMs cfgs).map Prod.fst = cfgs.map VMConfig.name ∧
      (declaredVMs cfgs).length = cfgs.length := by
  intro cfgs
  refine ⟨?_, ?_, ?_, ?_⟩
  · rw [createdBy, List.map_eq_nil_iff, List.filter_eq_nil_iff]
    intro p hp
    have hs := lookup_isSome_of_mem (declaredVMs cfgs) p hp
    simp only [applyRun]
    cases hl : (declaredVMs cfgs).lookup p.1 with
    | some a => simp
    | none => rw [hl] at hs; simp at hs
  · funext n
    simp only [applyRun]
    cases hl : (declaredVMs cfgs).lookup n <;> simp
  · simp [declaredVMs]
  · simp [declaredVMs]

/-- Claim C4, counterexample: the exported summary does not contain the
node's address — for a concrete single-node run whose cloud-init block
assigns a static address, that address occurs nowhere among the output
strings, so `summaryContainsAddresses` is false. -/
theorem summary_claim_false : ¬ summaryContainsAddresses := by
  intro h
  have hm := (h [cfgWithAddress]).2 cfgWithAddress (List.mem_singleton.mpr rfl)
      ((cfgWithAddress.cloudInit).get (by decide))
      ({ address := "10.0.0.77/24", gateway := "10.0.0.1" }) (by decide) (by decide)
  revert hm
  decide

/-- Claim C4, amended: the exported summary contains the total node
count, per node (keyed by its name) the resource identity handle, the
resolved name, the target host and the requested VM id, and the id
list — and nothing else (no address, API endpoint, storage namespace,
fast-storage list, or bootstrap state). -/
theorem summary_amended :
    ∀ cfgs : List VMConfig,
      (mainOutputs cfgs).totalVms = cfgs.length ∧
      (mainOutputs cfgs).vmsByName.map Prod.fst = cfgs.map VMConfig.name ∧
      (mainOutputs cfgs).vmIdList.length = cfgs.length ∧
      ∀ cfg ∈ cfgs,
        ((cfg.name, { id := cfg.name, name := cfg.name, nodeName := cfg.nodeName
                      requestedVmId := cfg.vmId }) : String × VMEntry) ∈
          (mainOutputs cfgs).vmsByName := by
  intro cfgs
  refine ⟨rfl, by simp [mainOutputs], by simp [mainOutputs], ?_⟩
  intro cfg hc
  exact List.mem_map_of_mem _ hc

/-- Claim C4 witness: for the single-node run on `baseCfg` the summary
holds one node and its per-node record. -/
theorem summary_amended_witness :
    (mainOutputs [baseCfg]).totalVms = 1 ∧
    ((("vm1", { id := "vm1", name := "vm1", nodeName := "pve1"
                requestedVmId := some 100 }) : String × VMEntry) ∈
      (mainOutputs [baseCfg]).vmsByName) :=
  ⟨(summary_amended [baseCfg]).1,
   (summary_amended [baseCfg]).2.2.2 baseCfg (List.mem_singleton.mpr rfl)⟩

/-- Claim C5, counterexample: the loader accepts a semantically invalid
inventory — duplicate names, zero cores/sockets/memory/disk and an
unparseable address all pass through `requireObject` unexamined — so
`loaderValidates` is false. -/
theorem loader_claim_false : ¬ loaderValidates := by
  intro h
  have hv := h rawInvalid
      { endpoint := "https://pve.example:8006", apiToken := "root@pam token"
        insecure := false, vms := [cfgInvalid, cfgInvalid2] } rfl
  have hpos := (hv.2 cfgInvalid (List.mem_cons_self _ _)).1
  exact absurd hpos (by decide)

/-- Claim C5, amended: the loader returns the typed configuration
exactly when the required keys (endpoint, API token, vms) are present,
failing with an error naming the missing key otherwise; the VM list is
passed through without any semantic validation. -/
theorem loader_amended :
    ∀ raw : RawStackConfig,
      (∀ e t vs, raw.endpoint = some e → raw.apiToken = some t →
        raw.vms = some vs →
        loadStackConfig raw =
          .ok { endpoint := e, apiToken := t
                insecure := raw.insecure.getD false, vms := vs }) ∧
      (raw.endpoint = none →
        loadStackConfig raw = .error (.missingKey "proxmox:endpoint")) ∧
      (∀ out, loadStackConfig raw = .ok out → raw.vms = some out.vms) := by
  intro raw
  refine ⟨?_, ?_, ?_⟩
  · intro e t vs he ht hv
    simp [loadStackConfig, he, ht, hv]
  · intro he
    simp [loadStackConfig, he]
  · intro out hout
    cases he : raw.endpoint with
    | none => simp [loadStackConfig, he] at hout
    | some e =>
      cases ht : raw.apiToken with
      | none => simp [loadStackConfig, he, ht] at hout
      | some t =>
        cases hv : raw.vms with
        | none => simp [loadStackConfig, he, ht, hv] at hout
        | some vs =>
          simp [loadStackConfig, he, ht, hv] at hout
          rw [← hout]

/-- Claim C5 witness: the loader accepts `rawValid` (all keys present)
and returns its VM list untouched. -/
theorem loader_amended_witness :
    loadStackConfig rawValid =
      .ok { endpoint := "https://pve.example:8006", apiToken := "root@pam token"
            insecure := true, vms := [baseCfg] } :=
  (loader_amended rawValid).1 "https://pve.example:8006" "root@pam token"
    [baseCfg] rfl rfl rfl

/-- Claim C9: the cloud-init `userAccount` block is present iff
`cloudInit.sshKeys` is supplied; it then carries the supplied keys and a
username defaulting to root when none is given, and it carries a
password only when `cloudInit.password` is supplied (username or
password without `sshKeys` are ignored, since no block is emitted). -/
theorem userAccount_iff_sshKeys :
    ∀ cfg : VMConfig,
      ((userAccountOf (mkVMArgs cfg)).isSome ↔
        (cfg.cloudInit.bind CloudInitConfig.sshKeys).isSome) ∧
      (∀ ci ks, cfg.cloudInit = some ci → ci.sshKeys = some ks →
        (userAccountOf (mkVMArgs cfg)).map UserAccountArgs.username =
          some (ci.username.getD "root") ∧
        (userAccountOf (mkVMArgs cfg)).map UserAccountArgs.keys = some ks) ∧
      (∀ ua, userAccountOf (mkVMArgs cfg) = some ua → ua.password.isSome →
        (cfg.cloudInit.bind CloudInitConfig.password).isSome) := by
  intro cfg
  refine ⟨?_, ?_, ?_⟩
  · cases hci : cfg.cloudInit with
    | none => simp [mkVMArgs, userAccountOf, hci]
    | some ci =>
      cases hks : ci.sshKeys <;>
        simp [mkVMArgs, userAccountOf, hci, hks]
  · intro ci ks hci hks
    constructor <;> simp [mkVMArgs, userAccountOf, hci, hks]
  · intro ua hua hpw
    cases hci : cfg.cloudInit with
    | none => simp [mkVMArgs, userAccountOf, hci] at hua
    | some ci =>
      cases hks : ci.sshKeys with
      | none => simp [mkVMArgs, userAccountOf, hci, hks] at hua
      | some ks =>
        simp [mkVMArgs, userAccountOf, hci, hks] at hua
        rw [← hua] at hpw
        simp only [Option.some_bind, hci]
        cases hpw' : ci.password with
        | none => rw [hpw'] at hpw; simp at hpw
        | some p => simp

/-- Claim C9 witness: for `cfgUserAcct` (keys supplied, no username, a
password) the block is present, the username is root, and the password
presence squares with the config. -/
theorem userAccount_iff_sshKeys_witness :
    (userAccountOf (mkVMArgs cfgUserAcct)).map UserAccountArgs.username =
      some "root" ∧
    (userAccountOf (mkVMArgs cfgUserAcct)).map UserAccountArgs.keys =
      some ["k1"] ∧
    (cfgUserAcct.cloudInit.bind CloudInitConfig.password).isSome :=
  ⟨((userAccount_iff_sshKeys cfgUserAcct).2.1
      ({ datastoreId := "local-lvm", dns := none, ipv4 := none
         sshKeys := some ["k1"], username := none, password := some "pw" })
      ["k1"] rfl rfl).1,
   ((userAccount_iff_sshKeys cfgUserAcct).2.1
      ({ datastoreId := "local-lvm", dns := none, ipv4 := none
         sshKeys := some ["k1"], username := none, password := some "pw" })
      ["k1"] rfl rfl).2,
   (userAccount_iff_sshKeys cfgUserAcct).2.2
      { username := "root", keys := ["k1"], password := some "pw" } rfl rfl⟩

/-- Claim C10: every declared VirtualMachine carries the same fixed
settings — seabios, on-boot start, guest agent with trim over virtio,
and operating-system type l26. -/
theorem fixed_settings :
    ∀ cfg : VMConfig,
      (mkVMArgs cfg).bios = "seabios" ∧
      (mkVMArgs cfg).onBoot = true ∧
      (mkVMArgs cfg).agent = { enabled := true, trim := true, type := "virtio" } ∧
      (mkVMArgs cfg).operatingSystem = { type := "l26" } :=
  fun _ => ⟨rfl, rfl, rfl, rfl⟩
